import Mathlib

/-!
Verification development for the docker-db-manager container-lifecycle core
(`src-tauri/src/commands/database.rs`, `src-tauri/src/services/docker.rs`,
`src-tauri/src/services/storage.rs`).

The Rust code is shallowly embedded: pure functions become Lean functions;
the stateful Tauri commands become functions from an explicit environment
(the outcomes of the external docker/store calls), the request and the
in-memory record map to a result, the updated map and the ordered trace of
engine/store calls performed.  Rust `HashMap` is modelled as an association
list observed through lookup; Rust `i32` as `Int`; fallible calls as
`Except String`.
-/

namespace DDM

/-! ## Association-list model of `HashMap<String, V>` -/

/-- Lookup in the association-list model of a `HashMap`. -/
def lookupA (k : String) : List (String × β) → Option β
  | [] => none
  | (k', v) :: rest => if k' = k then some v else lookupA k rest

/-- `HashMap::insert`: replace the value when the key is present, add the
entry otherwise. -/
def insertA (k : String) (v : β) : List (String × β) → List (String × β)
  | [] => [(k, v)]
  | (k', v') :: rest => if k' = k then (k, v) :: rest else (k', v') :: insertA k v rest

/-- `HashMap::remove`: drop the entry with the given key, if any. -/
def eraseA (k : String) : List (String × β) → List (String × β)
  | [] => []
  | (k', v') :: rest => if k' = k then rest else (k', v') :: eraseA k rest

/-- Contiguous-sublist test on character lists. -/
def containsSub : List Char → List Char → Bool
  | [], n => n.isEmpty
  | c :: t, n => n.isPrefixOf (c :: t) || containsSub t n

/-- Substring test, as Rust `str::contains`. -/
def containsSubstr (haystack needle : String) : Bool :=
  containsSub haystack.toList needle.toList

/-! ## Data types (`src/types/*.rs`) -/

/-- `types/database.rs`: `DatabaseContainer`. -/
structure DatabaseContainer where
  id : String
  name : String
  db_type : String
  version : String
  status : String
  port : Int
  created_at : String
  max_connections : Int
  container_id : Option String
  stored_password : Option String
  stored_username : Option String
  stored_database_name : Option String
  stored_persist_data : Bool
  stored_enable_auth : Bool
  deriving Repr, DecidableEq

/-- `types/docker.rs`: `PortMapping`. -/
structure PortMapping where
  host : Int
  container : Int
  deriving Repr, DecidableEq

/-- `types/docker.rs`: `VolumeMount`. -/
structure VolumeMount where
  name : String
  path : String
  deriving Repr, DecidableEq

/-- `types/docker.rs`: `DockerRunArgs`.  The Rust `env_vars` is a
`HashMap<String, String>`; it is modelled by its iteration sequence. -/
structure DockerRunArgs where
  image : String
  env_vars : List (String × String)
  ports : List PortMapping
  volumes : List VolumeMount
  command : List String
  deriving Repr, DecidableEq

/-- `types/docker.rs`: `ContainerMetadata`. -/
structure ContainerMetadata where
  id : String
  db_type : String
  version : String
  port : Int
  username : Option String
  password : String
  database_name : Option String
  persist_data : Bool
  enable_auth : Bool
  max_connections : Option Int
  deriving Repr, DecidableEq

/-- `types/docker.rs`: `DockerRunRequest`. -/
structure DockerRunRequest where
  name : String
  docker_args : DockerRunArgs
  metadata : ContainerMetadata
  deriving Repr, DecidableEq

/-- `types/settings.rs`: `PostgresSettings`. -/
structure PostgresSettings where
  initdb_args : Option String
  host_auth_method : String
  shared_preload_libraries : Option String
  deriving Repr, DecidableEq

/-- `types/settings.rs`: `MysqlSettings`. -/
structure MysqlSettings where
  root_host : String
  character_set : String
  collation : String
  sql_mode : String
  deriving Repr, DecidableEq

/-- `types/settings.rs`: `RedisSettings`. -/
structure RedisSettings where
  max_memory : String
  max_memory_policy : String
  append_only : Bool
  require_pass : Bool
  deriving Repr, DecidableEq

/-- `types/settings.rs`: `MongoSettings`. -/
structure MongoSettings where
  auth_source : String
  enable_sharding : Bool
  oplog_size : String
  deriving Repr, DecidableEq

/-- `types/requests.rs`: `CreateDatabaseRequest`. -/
structure CreateDatabaseRequest where
  name : String
  db_type : String
  version : String
  port : Int
  username : Option String
  password : String
  database_name : Option String
  persist_data : Bool
  enable_auth : Bool
  max_connections : Option Int
  postgres_settings : Option PostgresSettings
  mysql_settings : Option MysqlSettings
  redis_settings : Option RedisSettings
  mongo_settings : Option MongoSettings
  deriving Repr, DecidableEq

/-- `types/requests.rs`: `UpdateContainerRequest`. -/
structure UpdateContainerRequest where
  container_id : String
  name : Option String
  port : Option Int
  username : Option String
  password : Option String
  database_name : Option String
  max_connections : Option Int
  enable_auth : Option Bool
  persist_data : Option Bool
  restart_policy : Option String
  auto_start : Option Bool
  deriving Repr, DecidableEq

/-- `types/errors.rs`-shaped structured error used by the create commands
(`CreateContainerError`); the Rust code serialises it to JSON with
`serde_json::to_string` before returning it as the command's error string. -/
structure CreateContainerError where
  error_type : String
  message : String
  port : Option Int
  details : Option String
  deriving Repr, DecidableEq

/-- The in-memory record set `DatabaseStore` (a `HashMap<String, DatabaseContainer>`
behind a mutex), modelled as an association list. -/
abbrev DbMap := List (String × DatabaseContainer)

/-! ## `services/docker.rs`: pure command builders -/

namespace DockerService

/-- `DockerService::build_docker_command_from_args` (docker.rs lines 67-106):
the generic, database-agnostic run-argument builder. -/
def build_docker_command_from_args (container_name : String)
    (docker_args : DockerRunArgs) : List String :=
  let args := ["run", "-d", "--name", container_name]
  let args := docker_args.ports.foldl
    (fun a p => a ++ ["-p", toString p.host ++ ":" ++ toString p.container]) args
  let args := docker_args.volumes.foldl
    (fun a v => a ++ ["-v", v.name ++ ":" ++ v.path]) args
  let args := docker_args.env_vars.foldl
    (fun a kv => a ++ ["-e", kv.1 ++ "=" ++ kv.2]) args
  let args := args ++ [docker_args.image]
  if docker_args.command.isEmpty then args else args ++ docker_args.command

/-- `DockerService::get_default_port` (docker.rs lines 252-260). -/
def get_default_port (db_type : String) : Int :=
  match db_type with
  | "PostgreSQL" => 5432
  | "MySQL" => 3306
  | "Redis" => 6379
  | "MongoDB" => 27017
  | _ => 5432

/-- `DockerService::get_data_path` (docker.rs lines 262-270). -/
def get_data_path (db_type : String) : String :=
  match db_type with
  | "PostgreSQL" => "/var/lib/postgresql/data"
  | "MySQL" => "/var/lib/mysql"
  | "Redis" => "/data"
  | "MongoDB" => "/data/db"
  | _ => "/data"

/-- `DockerService::build_docker_command` (docker.rs lines 110-250): the
legacy kind-aware builder; fails on an unsupported database type. -/
def build_docker_command (request : CreateDatabaseRequest)
    (volume_name : Option String) : Except String (List String) :=
  let args := ["run", "-d", "--name", request.name,
    "-p", toString request.port ++ ":" ++ toString (get_default_port request.db_type)]
  let args := match volume_name with
    | some vol_name => args ++ ["-v", vol_name ++ ":" ++ get_data_path request.db_type]
    | none => args
  match request.db_type with
  | "PostgreSQL" =>
    let args := args ++ ["-e", "POSTGRES_PASSWORD=" ++ request.password]
    let args := match request.username with
      | some username =>
        if username ≠ "postgres" then args ++ ["-e", "POSTGRES_USER=" ++ username] else args
      | none => args
    let args := match request.database_name with
      | some db_name =>
        if db_name ≠ "postgres" then args ++ ["-e", "POSTGRES_DB=" ++ db_name] else args
      | none => args
    let args := match request.postgres_settings with
      | some pg =>
        let args := if pg.host_auth_method ≠ "" then
          args ++ ["-e", "POSTGRES_HOST_AUTH_METHOD=" ++ pg.host_auth_method] else args
        match pg.initdb_args with
        | some ia => if ia ≠ "" then args ++ ["-e", "POSTGRES_INITDB_ARGS=" ++ ia] else args
        | none => args
      | none => args
    Except.ok (args ++ ["postgres:" ++ request.version])
  | "MySQL" =>
    let args := args ++ ["-e", "MYSQL_ROOT_PASSWORD=" ++ request.password]
    let args := match request.database_name with
      | some db_name => args ++ ["-e", "MYSQL_DATABASE=" ++ db_name]
      | none => args
    let args := match request.mysql_settings with
      | some ms => args ++ ["-e", "MYSQL_CHARACTER_SET_SERVER=" ++ ms.character_set,
          "-e", "MYSQL_COLLATION_SERVER=" ++ ms.collation]
      | none => args
    Except.ok (args ++ ["mysql:" ++ request.version])
  | "Redis" =>
    let args := args ++ ["redis:" ++ request.version]
    if request.enable_auth || request.redis_settings.isSome then
      let args := args ++ ["redis-server"]
      let args := if request.enable_auth then args ++ ["--requirepass", request.password] else args
      match request.redis_settings with
      | some rs =>
        let args := if rs.max_memory ≠ "" then args ++ ["--maxmemory", rs.max_memory] else args
        let args := args ++ ["--maxmemory-policy", rs.max_memory_policy]
        Except.ok (if rs.append_only then args ++ ["--appendonly", "yes"] else args)
      | none => Except.ok args
    else
      Except.ok args
  | "MongoDB" =>
    let args := args ++ ["-e",
      "MONGO_INITDB_ROOT_USERNAME=" ++ (request.username.getD "admin")]
    let args := args ++ ["-e", "MONGO_INITDB_ROOT_PASSWORD=" ++ request.password]
    let args := match request.database_name with
      | some db_name => args ++ ["-e", "MONGO_INITDB_DATABASE=" ++ db_name]
      | none => args
    Except.ok (args ++ ["mongo:" ++ request.version])
  | _ => Except.error "Unsupported database type"

end DockerService

/-! ## Character-list string helpers

Lean's built-in `String.splitOn`/`trim`/`startsWith` are byte-position based
and do not reduce in the kernel, so the Rust `str` operations used by
`sync_containers_with_docker` are modelled directly over `List Char`. -/

/-- Rust `char::is_whitespace`, restricted to the ASCII whitespace that can
occur in `docker ps` output. -/
def isWsChar (c : Char) : Bool :=
  c = ' ' || c = '\t' || c = '\n' || c = '\r'

/-- Rust `str::trim` on a character list. -/
def trimC (cs : List Char) : List Char :=
  ((cs.dropWhile isWsChar).reverse.dropWhile isWsChar).reverse

/-- Rust `str::split(sep)` on a character list (an empty input yields one
empty piece, as in Rust). -/
def splitC (sep : Char) : List Char → List (List Char)
  | [] => [[]]
  | c :: rest =>
    if c = sep then [] :: splitC sep rest
    else
      match splitC sep rest with
      | [] => [[c]]
      | g :: gs => (c :: g) :: gs

/-- Rust `str::lines` on a character list: split on `'\n'`, strip a trailing
`'\r'` from each line, and drop the empty piece a trailing newline leaves. -/
def linesC (cs : List Char) : List (List Char) :=
  let pieces := (splitC '\n' cs).map
    (fun l => if l.getLast? = some '\r' then l.dropLast else l)
  match pieces.getLast? with
  | some [] => pieces.dropLast
  | _ => pieces

/-! ## `services/docker.rs`: executor outcomes and error-swallowing verbs -/

/-- Outcome of one invocation of the command-execution facility
(`tauri_plugin_shell`): either the process ran (with its success flag,
stdout and stderr), or the invocation itself failed at the transport
level (the `Err` case of `.output().await`). -/
inductive ExecResult where
  | ok (status_success : Bool) (stdout stderr : String)
  | transportErr (msg : String)
  deriving Repr, DecidableEq

namespace DockerService

/-- `DockerService::remove_container` (docker.rs lines 443-479), as a
function of the outcomes of its `docker stop` and `docker rm` invocations.
The stop outcome is ignored (`let _ =`); a transport-level failure of the
`rm` invocation falls through to `Ok`, and an engine failure is an error
only when stderr does not contain "No such container". -/
def remove_container (stopRes rmRes : ExecResult) : Except String Unit :=
  match stopRes with
  | _ =>
    match rmRes with
    | ExecResult.ok success _ stderr =>
      if !success then
        if !(containsSubstr stderr "No such container") then
          Except.error ("Failed to remove container: " ++ stderr)
        else Except.ok ()
      else Except.ok ()
    | ExecResult.transportErr _ => Except.ok ()

/-- `DockerService::force_remove_container_by_name` (docker.rs lines
663-699): identical outcome logic to `remove_container`, keyed by name. -/
def force_remove_container_by_name (stopRes rmRes : ExecResult) : Except String Unit :=
  match stopRes with
  | _ =>
    match rmRes with
    | ExecResult.ok success _ stderr =>
      if !success then
        if !(containsSubstr stderr "No such container") then
          Except.error ("Failed to remove container: " ++ stderr)
        else Except.ok ()
      else Except.ok ()
    | ExecResult.transportErr _ => Except.ok ()

/-- `DockerService::remove_volume_if_exists` (docker.rs lines 540-577), as a
function of the outcomes of the `volume inspect` and `volume rm`
invocations.  When inspect does not report an existing volume the function
succeeds without attempting removal; when the `rm` invocation fails at the
transport level the failure falls through to `Ok`; an engine failure is an
error only when stderr does not contain "No such volume". -/
def remove_volume_if_exists (inspectRes rmRes : ExecResult) : Except String Unit :=
  match inspectRes with
  | ExecResult.ok inspectSuccess _ _ =>
    if inspectSuccess then
      match rmRes with
      | ExecResult.ok success _ stderr =>
        if !success then
          if !(containsSubstr stderr "No such volume") then
            Except.error ("Failed to remove volume: " ++ stderr)
          else Except.ok ()
        else Except.ok ()
      | ExecResult.transportErr _ => Except.ok ()
    else Except.ok ()
  | ExecResult.transportErr _ => Except.ok ()

/-- The per-line parse of `docker ps -a --format "{{.ID}},{{.Names}},{{.Status}}"`
output inside `sync_containers_with_docker` (docker.rs lines 365-380): skip
lines that are empty after trimming, require at least three comma-separated
parts, trim each part, and derive the running flag from whether the status
text starts with "Up"; entries are keyed by name with insert-overwrite
semantics (`HashMap::insert`). -/
def parseDockerContainers (stdout : String) : List (String × String × Bool) :=
  (linesC stdout.toList).foldl
    (fun docker_containers line =>
      if (trimC line).isEmpty then docker_containers
      else
        match splitC ',' line with
        | p0 :: p1 :: p2 :: _ =>
          let container_id := trimC p0
          let name := trimC p1
          let status := trimC p2
          let is_running := ("Up".toList).isPrefixOf status
          insertA (String.mk name) (String.mk container_id, is_running) docker_containers
        | _ => docker_containers)
    []

/-- `DockerService::sync_containers_with_docker` (docker.rs lines 340-401),
as a function of the outcome of the `docker ps -a` invocation and the
in-memory record map.  On a transport failure or an unsuccessful `ps` the
map is untouched and an error is returned; otherwise every record whose
name appears in the parsed container list gets the observed id and a status
derived from the observed running flag, and every other record is marked
stopped with no container id. -/
def sync_containers_with_docker (psRes : ExecResult) (container_map : DbMap) :
    Except String DbMap :=
  match psRes with
  | ExecResult.transportErr e =>
    Except.error ("Failed to get Docker containers: " ++ e)
  | ExecResult.ok success stdout _ =>
    if !success then Except.error "Failed to get Docker containers"
    else
      let docker_containers := parseDockerContainers stdout
      Except.ok (container_map.map (fun kv =>
        match lookupA kv.2.name docker_containers with
        | some (docker_id, is_running) =>
          (kv.1, { kv.2 with
            container_id := some docker_id,
            status := if is_running then "running" else "stopped" })
        | none =>
          (kv.1, { kv.2 with
            status := "stopped",
            container_id := none })))

end DockerService

/-! ## `services/storage.rs`: persistence round-trip -/

namespace StorageService

/-- `StorageService::save_databases_to_store` (storage.rs lines 14-33): the
value written under the "databases" key is `databases.values()` collected
into a vector; the iteration order of the Rust `HashMap` is arbitrary, so
theorems quantify over permutations of this list. -/
def save_databases_to_store (databases : DbMap) : List DatabaseContainer :=
  databases.map Prod.snd

/-- `StorageService::load_databases_from_store` (storage.rs lines 35-57):
rebuild the map by inserting every deserialized record under its own
`id` field. -/
def load_databases_from_store (databases_vec : List DatabaseContainer) : DbMap :=
  databases_vec.foldl (fun database_map db => insertA db.id db database_map) []

end StorageService

/-! ## `commands/database.rs`: the lifecycle orchestrator

Each Tauri command is embedded as a function of an `Env` — the outcomes the
external docker/store collaborators would produce for each logical call —
returning the command's result, the updated in-memory map and the ordered
trace of external calls issued. -/

/-- Outcomes of the external calls available to the orchestrator. -/
structure Env where
  createVolume : String → Except String Unit
  runContainer : List String → Except String String
  removeContainer : String → Except String Unit
  removeVolume : String → Except String Unit
  migrateVolume : String → String → String → Except String Unit
  saveStore : Except String Unit

/-- One external call issued by the orchestrator, in issue order. -/
inductive Event where
  | createVolume (name : String)
  | runContainer (args : List String)
  | forceRemoveByName (name : String)
  | removeContainer (id : String)
  | removeVolume (name : String)
  | migrateVolume (oldVolume newVolume dataPath : String)
  | saveStore
  deriving Repr, DecidableEq

/-- A command's error: either a structured `CreateContainerError` (which the
Rust code serialises to JSON with `serde_json::to_string` before returning)
or a plain propagated error string. -/
inductive CmdError where
  | create (e : CreateContainerError)
  | msg (s : String)
  deriving Repr, DecidableEq

namespace Commands

/-- The `for volume in &request.docker_args.volumes` loop of
`create_container_from_docker_args` (database.rs lines 18-22): create each
volume in order, propagating the first failure with `?`. -/
def createVolumes (env : Env) : List VolumeMount → Except String Unit × List Event
  | [] => (Except.ok (), [])
  | v :: rest =>
    match env.createVolume v.name with
    | Except.error e => (Except.error e, [Event.createVolume v.name])
    | Except.ok () =>
      let (r, evs) := createVolumes env rest
      (r, Event.createVolume v.name :: evs)

/-- The run-failure classification of `create_container_from_docker_args`
(database.rs lines 44-81): substring match on the engine error text, first
for a port conflict, then a name conflict, otherwise a generic docker
error carrying the raw message in `details`. -/
def classifyRunError (error : String) (name : String) (port : Int) : CreateContainerError :=
  if containsSubstr error "port is already allocated" || containsSubstr error "Bind for" then
    { error_type := "PORT_IN_USE",
      message := "Port " ++ toString port ++ " is already in use",
      port := some port,
      details := some "You can change the port in the configuration and try again." }
  else if containsSubstr error "name is already in use" || containsSubstr error "already exists" then
    { error_type := "NAME_IN_USE",
      message := "A container with the name '" ++ name ++ "' already exists",
      port := none,
      details := some "Change the container name and try again." }
  else
    { error_type := "DOCKER_ERROR",
      message := "Error creating container",
      port := none,
      details := some error }

/-- Same classification in the legacy `create_database_container`
(database.rs lines 180-215); only the port-conflict `details` text
differs. -/
def classifyRunErrorLegacy (error : String) (name : String) (port : Int) : CreateContainerError :=
  if containsSubstr error "port is already allocated" || containsSubstr error "Bind for" then
    { error_type := "PORT_IN_USE",
      message := "Port " ++ toString port ++ " is already in use",
      port := some port,
      details := some "You can change the port in the configuration and try again. The port can be modified later if needed." }
  else if containsSubstr error "name is already in use" || containsSubstr error "already exists" then
    { error_type := "NAME_IN_USE",
      message := "A container with the name '" ++ name ++ "' already exists",
      port := none,
      details := some "Change the container name and try again." }
  else
    { error_type := "DOCKER_ERROR",
      message := "Error creating container",
      port := none,
      details := some error }

/-- `create_container_from_docker_args` (database.rs lines 9-136).  `now` is
the `chrono::Utc::now()` date string.  On run failure the best-effort
cleanup calls (force-remove by name, remove each requested volume) are
issued — their results ignored (`let _ =`) — before the classified error is
returned; on save failure the record is removed from the map again and the
container and volumes are removed before a configuration-save error is
returned. -/
def create_container_from_docker_args (env : Env) (request : DockerRunRequest)
    (now : String) (databases : DbMap) :
    Except CmdError DatabaseContainer × DbMap × List Event :=
  let (volRes, volEvents) := createVolumes env request.docker_args.volumes
  match volRes with
  | Except.error e => (Except.error (CmdError.msg e), databases, volEvents)
  | Except.ok () =>
    let docker_args :=
      DockerService.build_docker_command_from_args request.name request.docker_args
    match env.runContainer docker_args with
    | Except.error error =>
      (Except.error (CmdError.create (classifyRunError error request.name request.metadata.port)),
       databases,
       volEvents ++ [Event.runContainer docker_args, Event.forceRemoveByName request.name]
         ++ request.docker_args.volumes.map (fun v => Event.removeVolume v.name))
    | Except.ok real_container_id =>
      let database : DatabaseContainer := {
        id := request.metadata.id,
        name := request.name,
        db_type := request.metadata.db_type,
        version := request.metadata.version,
        status := "running",
        port := request.metadata.port,
        created_at := now,
        max_connections := request.metadata.max_connections.getD 100,
        container_id := some real_container_id,
        stored_password := some request.metadata.password,
        stored_username := request.metadata.username,
        stored_database_name := request.metadata.database_name,
        stored_persist_data := request.metadata.persist_data,
        stored_enable_auth := request.metadata.enable_auth }
      let databases1 := insertA request.metadata.id database databases
      match env.saveStore with
      | Except.error store_error =>
        (Except.error (CmdError.msg ("Error saving configuration: " ++ store_error)),
         eraseA request.metadata.id databases1,
         volEvents ++ [Event.runContainer docker_args, Event.saveStore,
           Event.removeContainer real_container_id]
           ++ request.docker_args.volumes.map (fun v => Event.removeVolume v.name))
      | Except.ok () =>
        (Except.ok database, databases1,
         volEvents ++ [Event.runContainer docker_args, Event.saveStore])

/-- Legacy `create_database_container` (database.rs lines 141-267).  `uuid`
is the generated record id, `now` the date string.  The derived volume
`{name}-data` is created only when `persist_data` is set; the same
run-failure cleanup/classification and save-failure rollback shapes apply
as in the generic command. -/
def create_database_container (env : Env) (request : CreateDatabaseRequest)
    (uuid : String) (now : String) (databases : DbMap) :
    Except CmdError DatabaseContainer × DbMap × List Event :=
  let container_id := uuid
  let volume_name := if request.persist_data then some (request.name ++ "-data") else none
  let (volRes, volEvents) :=
    match volume_name with
    | some vol_name =>
      (env.createVolume vol_name, [Event.createVolume vol_name])
    | none => (Except.ok (), [])
  match volRes with
  | Except.error e => (Except.error (CmdError.msg e), databases, volEvents)
  | Except.ok () =>
    match DockerService.build_docker_command request volume_name with
    | Except.error e => (Except.error (CmdError.msg e), databases, volEvents)
    | Except.ok docker_args =>
      match env.runContainer docker_args with
      | Except.error error =>
        (Except.error
           (CmdError.create (classifyRunErrorLegacy error request.name request.port)),
         databases,
         volEvents ++ [Event.runContainer docker_args, Event.forceRemoveByName request.name]
           ++ (match volume_name with
               | some vol_name => [Event.removeVolume vol_name]
               | none => []))
      | Except.ok real_container_id =>
        let database : DatabaseContainer := {
          id := container_id,
          name := request.name,
          db_type := request.db_type,
          version := request.version,
          status := "running",
          port := request.port,
          created_at := now,
          max_connections := request.max_connections.getD 100,
          container_id := some real_container_id,
          stored_password := some request.password,
          stored_username := request.username,
          stored_database_name := request.database_name,
          stored_persist_data := request.persist_data,
          stored_enable_auth := request.enable_auth }
        let databases1 := insertA container_id database databases
        match env.saveStore with
        | Except.error store_error =>
          (Except.error (CmdError.msg ("Error saving configuration: " ++ store_error)),
           eraseA container_id databases1,
           volEvents ++ [Event.runContainer docker_args, Event.saveStore,
             Event.removeContainer real_container_id]
             ++ (match volume_name with
                 | some vol_name => [Event.removeVolume vol_name]
                 | none => []))
        | Except.ok () =>
          (Except.ok database, databases1,
           volEvents ++ [Event.runContainer docker_args, Event.saveStore])

/-- The record lookup of `remove_container` (database.rs lines 411-419):
`values().find(|db| db.id == container_id)` — by the record's `id` field,
not by map key. -/
def findByIdField (container_id : String) (databases : DbMap) : Option DatabaseContainer :=
  (databases.find? (fun kv => kv.2.id == container_id)).map Prod.snd

/-- `remove_container` command (database.rs lines 402-448): remove the
engine container when a container id is stored (propagating its error),
then, for a persistence-enabled record, remove the `{name}-data` volume
(propagating its error), and only then erase the record by key and save. -/
def remove_container_command (env : Env) (container_id : String) (databases : DbMap) :
    Except String Unit × DbMap × List Event :=
  let container_info := findByIdField container_id databases
  let real_container_id := container_info.bind (fun db => db.container_id)
  let (rcRes, rcEvents) :=
    match real_container_id with
    | some real_id => (env.removeContainer real_id, [Event.removeContainer real_id])
    | none => (Except.ok (), [])
  match rcRes with
  | Except.error e => (Except.error e, databases, rcEvents)
  | Except.ok () =>
    let (rvRes, rvEvents) :=
      match container_info with
      | some container =>
        if container.stored_persist_data then
          let volume_name := container.name ++ "-data"
          (env.removeVolume volume_name, [Event.removeVolume volume_name])
        else (Except.ok (), [])
      | none => (Except.ok (), [])
    match rvRes with
    | Except.error e => (Except.error e, databases, rcEvents ++ rvEvents)
    | Except.ok () =>
      let databases1 := eraseA container_id databases
      match env.saveStore with
      | Except.error e =>
        (Except.error e, databases1, rcEvents ++ rvEvents ++ [Event.saveStore])
      | Except.ok () =>
        (Except.ok (), databases1, rcEvents ++ rvEvents ++ [Event.saveStore])

/-- The recreation test of `update_container_config` (database.rs lines
474-476): true when a requested port is present and differs, or a requested
name is present and differs, or the request carries any `persist_data`
field at all. -/
def needsRecreation (request : UpdateContainerRequest) (container : DatabaseContainer) : Bool :=
  (request.port.isSome && request.port != some container.port)
  || (request.name.isSome && request.name != some container.name)
  || request.persist_data.isSome

/-- The `CreateDatabaseRequest` assembled for recreation inside
`update_container_config` (database.rs lines 484-520): requested values
where present, stored values otherwise; a missing password falls back to
the stored password or, failing that, the literal "password". -/
def updateCreateRequest (request : UpdateContainerRequest) (container : DatabaseContainer) :
    CreateDatabaseRequest :=
  { name := request.name.getD container.name,
    db_type := container.db_type,
    version := container.version,
    port := request.port.getD container.port,
    username := request.username.orElse (fun _ => container.stored_username),
    password := request.password.getD (container.stored_password.getD "password"),
    database_name := request.database_name.orElse (fun _ => container.stored_database_name),
    persist_data := request.persist_data.getD container.stored_persist_data,
    enable_auth := request.enable_auth.getD container.stored_enable_auth,
    max_connections := request.max_connections.orElse (fun _ => some container.max_connections),
    postgres_settings := none,
    mysql_settings := none,
    redis_settings := none,
    mongo_settings := none }

/-- The volume-transition step of `update_container_config` (database.rs
lines 522-556), returning the `-v` volume name for the recreated container.
When the new state is persistent: migrate old→new and remove the old
volume when the name changed and the old state was persistent, otherwise
just create the new volume.  When the new state is non-persistent: remove
the old volume only when the old state was persistent AND the name
changed. -/
def handleVolumeTransition (env : Env) (new_name : String) (persist_data : Bool)
    (container : DatabaseContainer) : Except String (Option String) × List Event :=
  if persist_data then
    let old_volume_name := container.name ++ "-data"
    let new_volume_name := new_name ++ "-data"
    if container.name != new_name && container.stored_persist_data then
      let data_path := DockerService.get_data_path container.db_type
      match env.migrateVolume old_volume_name new_volume_name data_path with
      | Except.error e =>
        (Except.error e, [Event.migrateVolume old_volume_name new_volume_name data_path])
      | Except.ok () =>
        match env.removeVolume old_volume_name with
        | Except.error e =>
          (Except.error e,
           [Event.migrateVolume old_volume_name new_volume_name data_path,
            Event.removeVolume old_volume_name])
        | Except.ok () =>
          (Except.ok (some new_volume_name),
           [Event.migrateVolume old_volume_name new_volume_name data_path,
            Event.removeVolume old_volume_name])
    else
      match env.createVolume new_volume_name with
      | Except.error e => (Except.error e, [Event.createVolume new_volume_name])
      | Except.ok () =>
        (Except.ok (some new_volume_name), [Event.createVolume new_volume_name])
  else
    if container.stored_persist_data && (container.name != new_name) then
      let old_volume_name := container.name ++ "-data"
      match env.removeVolume old_volume_name with
      | Except.error e => (Except.error e, [Event.removeVolume old_volume_name])
      | Except.ok () => (Except.ok none, [Event.removeVolume old_volume_name])
    else (Except.ok none, [])

/-- The shared tail of `update_container_config` (database.rs lines
590-605): insert the (possibly rewritten) record under its own id, then
save the whole map, propagating a save failure after the insert already
happened. -/
def finishUpdate (env : Env) (container : DatabaseContainer) (databases : DbMap)
    (events : List Event) :
    Except String DatabaseContainer × DbMap × List Event :=
  let databases1 := insertA container.id container databases
  match env.saveStore with
  | Except.error e => (Except.error e, databases1, events ++ [Event.saveStore])
  | Except.ok () => (Except.ok container, databases1, events ++ [Event.saveStore])

/-- `update_container_config` (database.rs lines 451-606).  The record is
looked up by map key; when recreation is needed the old container is
removed, the volume transition resolved, the legacy builder's arguments
run, and the record's mutable fields overwritten; otherwise only
`max_connections` is updated.  Both paths end by inserting and saving. -/
def update_container_config (env : Env) (request : UpdateContainerRequest)
    (databases : DbMap) :
    Except String DatabaseContainer × DbMap × List Event :=
  match lookupA request.container_id databases with
  | none => (Except.error "Container not found", databases, [])
  | some container =>
    if needsRecreation request container then
      let (rcRes, rcEvents) :=
        match container.container_id with
        | some old_id => (env.removeContainer old_id, [Event.removeContainer old_id])
        | none => (Except.ok (), [])
      match rcRes with
      | Except.error e => (Except.error e, databases, rcEvents)
      | Except.ok () =>
        let create_request := updateCreateRequest request container
        let new_name := request.name.getD container.name
        let (volRes, volEvents) :=
          handleVolumeTransition env new_name create_request.persist_data container
        match volRes with
        | Except.error e => (Except.error e, databases, rcEvents ++ volEvents)
        | Except.ok volume_name =>
          match DockerService.build_docker_command create_request volume_name with
          | Except.error e => (Except.error e, databases, rcEvents ++ volEvents)
          | Except.ok docker_args =>
            match env.runContainer docker_args with
            | Except.error e =>
              (Except.error e, databases,
               rcEvents ++ volEvents ++ [Event.runContainer docker_args])
            | Except.ok real_container_id =>
              let container' : DatabaseContainer := { container with
                name := new_name,
                port := request.port.getD container.port,
                container_id := some real_container_id,
                status := "running",
                stored_persist_data := create_request.persist_data,
                stored_enable_auth := create_request.enable_auth,
                stored_password :=
                  if request.password.isSome then some create_request.password
                  else container.stored_password,
                stored_username :=
                  if request.username.isSome then create_request.username
                  else container.stored_username,
                stored_database_name :=
                  if request.database_name.isSome then create_request.database_name
                  else container.stored_database_name,
                max_connections := request.max_connections.getD container.max_connections }
              finishUpdate env container' databases
                (rcEvents ++ volEvents ++ [Event.runContainer docker_args])
    else
      let container' : DatabaseContainer := { container with
        max_connections := request.max_connections.getD container.max_connections }
      finishUpdate env container' databases []

end Commands

/-! ## Helper lemmas -/

/-- Folding argument-pushes over a list is appending the flattened pieces. -/
theorem foldl_append_flatMap (g : α → List β) :
    ∀ (l : List α) (init : List β),
      l.foldl (fun a x => a ++ g x) init = init ++ l.flatMap g
  | [], init => by simp
  | x :: l, init => by
    simp only [List.foldl_cons, List.flatMap_cons, foldl_append_flatMap g l,
      List.append_assoc]

/-- Lookup after inserting the same key. -/
theorem lookupA_insertA_self (k : String) (v : β) :
    ∀ m : List (String × β), lookupA k (insertA k v m) = some v
  | [] => by simp [insertA, lookupA]
  | (k', v') :: rest => by
    by_cases h : k' = k <;> simp [insertA, lookupA, h, lookupA_insertA_self k v rest]

/-- Lookup after inserting a different key. -/
theorem lookupA_insertA_ne (k k' : String) (v : β) (h : k' ≠ k) :
    ∀ m : List (String × β), lookupA k (insertA k' v m) = lookupA k m
  | [] => by simp [insertA, lookupA, h]
  | (k'', v'') :: rest => by
    by_cases h2 : k'' = k'
    · subst h2; simp [insertA, lookupA, h]
    · by_cases h3 : k'' = k <;>
        simp [insertA, lookupA, h, Ne.symm h, h2, h3,
          lookupA_insertA_ne k k' v h rest]

/-- Erasing a freshly inserted key restores the original association list. -/
theorem eraseA_insertA_of_not_mem (k : String) (v : β) :
    ∀ m : List (String × β), k ∉ m.map Prod.fst → eraseA k (insertA k v m) = m
  | [], _ => by simp [insertA, eraseA]
  | (k', v') :: rest, h => by
    have hk' : k' ≠ k := by
      intro he; exact (by simpa [he] using h : k ∉ k :: rest.map Prod.fst) (by simp)
    have hrest : k ∉ rest.map Prod.fst := by
      intro hm; exact h (by simp [hm])
    simp [insertA, eraseA, hk', eraseA_insertA_of_not_mem k v rest hrest]

/-- A `lookupA` miss means the key is not among the entry keys. -/
theorem lookupA_eq_none_iff (k : String) :
    ∀ m : List (String × β), lookupA k m = none ↔ k ∉ m.map Prod.fst
  | [] => by simp [lookupA]
  | (k', v') :: rest => by
    by_cases h : k' = k
    · subst h; simp [lookupA]
    · simp [lookupA, h, lookupA_eq_none_iff k rest, Ne.symm h]

/-- With pairwise-distinct keys, a `lookupA` hit is exactly membership. -/
theorem lookupA_eq_some_iff_mem (k : String) (v : β) :
    ∀ m : List (String × β), (m.map Prod.fst).Nodup →
      (lookupA k m = some v ↔ (k, v) ∈ m)
  | [], _ => by simp [lookupA]
  | (k', v') :: rest, hnd => by
    rw [List.map_cons] at hnd
    have hnd2 := List.nodup_cons.mp hnd
    by_cases h : k' = k
    · subst h
      simp only [lookupA, if_pos rfl, List.mem_cons]
      constructor
      · intro he
        injection he with he
        exact Or.inl (by rw [he])
      · rintro (he | hm)
        · rw [Prod.mk.injEq] at he
          simp [he.2]
        · exact absurd (by simpa using List.mem_map_of_mem Prod.fst hm) hnd2.1
    · simp only [lookupA, if_neg h, List.mem_cons]
      rw [lookupA_eq_some_iff_mem k v rest hnd2.2]
      constructor
      · exact Or.inr
      · rintro (he | hm)
        · rw [Prod.mk.injEq] at he
          exact absurd he.1.symm h
        · exact hm

/-- Rebuilding the store map never touches keys absent from the record
vector. -/
theorem lookupA_load_go_of_ne (id : String) :
    ∀ (v : List DatabaseContainer) (acc : DbMap),
      (∀ db ∈ v, db.id ≠ id) →
      lookupA id (v.foldl (fun m db => insertA db.id db m) acc) = lookupA id acc
  | [], _, _ => rfl
  | db0 :: rest, acc, h => by
    rw [List.foldl_cons,
      lookupA_load_go_of_ne id rest _ (fun db hm => h db (List.mem_cons_of_mem _ hm))]
    exact lookupA_insertA_ne id db0.id db0 (h db0 (List.mem_cons_self _ _)) acc

/-- With pairwise-distinct record ids, rebuilding the store map binds each
record under its id. -/
theorem lookupA_load_go_mem (id : String) :
    ∀ (v : List DatabaseContainer) (acc : DbMap) (db : DatabaseContainer),
      db ∈ v → (v.map DatabaseContainer.id).Nodup → db.id = id →
      lookupA id (v.foldl (fun m d => insertA d.id d m) acc) = some db
  | db0 :: rest, acc, db, hmem, hnd, hid => by
    rw [List.map_cons] at hnd
    have hnd2 := List.nodup_cons.mp hnd
    rcases List.mem_cons.mp hmem with he | hm
    · subst he
      rw [List.foldl_cons]
      have hrest : ∀ d ∈ rest, d.id ≠ id := by
        intro d hd he2
        exact hnd2.1 (by
          rw [← hid] at he2
          exact he2 ▸ List.mem_map_of_mem DatabaseContainer.id hd)
      rw [lookupA_load_go_of_ne id rest _ hrest, ← hid]
      exact lookupA_insertA_self db.id db acc
    · rw [List.foldl_cons]
      exact lookupA_load_go_mem id rest _ db hm hnd2.2 hid

/-! ## Claim theorems -/

/-- C6: for every run specification, the generic command builder is a
deterministic pure function producing exactly
`run -d --name <name>`, then one `-p host:container` pair per port, then
one `-v name:path` pair per volume, then one `-e KEY=VALUE` pair per
environment entry, then the image reference, then any trailing command
tokens. -/
theorem C6_generic_builder_argument_order (container_name : String)
    (docker_args : DockerRunArgs) :
    DockerService.build_docker_command_from_args container_name docker_args =
      ["run", "-d", "--name", container_name]
        ++ docker_args.ports.flatMap
            (fun p => ["-p", toString p.host ++ ":" ++ toString p.container])
        ++ docker_args.volumes.flatMap (fun v => ["-v", v.name ++ ":" ++ v.path])
        ++ docker_args.env_vars.flatMap (fun kv => ["-e", kv.1 ++ "=" ++ kv.2])
        ++ [docker_args.image]
        ++ docker_args.command := by
  unfold DockerService.build_docker_command_from_args
  simp only [foldl_append_flatMap]
  rcases hc : docker_args.command with _ | ⟨c, cs⟩ <;>
    simp [List.append_assoc]

/-- C10: `remove_container`, `force_remove_container_by_name` and
`remove_volume_if_exists` return success when the removal invocation fails
at the transport level, and also when the engine reports "No such
container" (resp. "No such volume") on its stderr. -/
theorem C10_removal_tolerates_transport_failure_and_missing_target
    (stopRes inspectRes : ExecResult) (tmsg out stderrC stderrV : String) :
    (DockerService.remove_container stopRes (ExecResult.transportErr tmsg)
        = Except.ok ())
    ∧ (DockerService.force_remove_container_by_name stopRes
        (ExecResult.transportErr tmsg) = Except.ok ())
    ∧ (DockerService.remove_volume_if_exists inspectRes
        (ExecResult.transportErr tmsg) = Except.ok ())
    ∧ (containsSubstr stderrC "No such container" = true →
        DockerService.remove_container stopRes (ExecResult.ok false out stderrC)
            = Except.ok ()
        ∧ DockerService.force_remove_container_by_name stopRes
            (ExecResult.ok false out stderrC) = Except.ok ())
    ∧ (containsSubstr stderrV "No such volume" = true →
        DockerService.remove_volume_if_exists inspectRes
          (ExecResult.ok false out stderrV) = Except.ok ()) := by
  refine ⟨?_, ?_, ?_, fun hC => ⟨?_, ?_⟩, fun hV => ?_⟩
  · cases stopRes <;> rfl
  · cases stopRes <;> rfl
  · rcases inspectRes with ⟨s, o, e⟩ | m
    · cases s <;> rfl
    · rfl
  · cases stopRes <;> simp [DockerService.remove_container, hC]
  · cases stopRes <;> simp [DockerService.force_remove_container_by_name, hC]
  · rcases inspectRes with ⟨s, o, e⟩ | m
    · cases s <;> simp [DockerService.remove_volume_if_exists, hV]
    · rfl

/-- When every volume creation succeeds, the create-command volume loop
succeeds and issues one create event per requested volume, in order. -/
theorem createVolumes_all_ok (env : Env)
    (hvol : ∀ s, env.createVolume s = Except.ok ()) :
    ∀ volumes : List VolumeMount,
      Commands.createVolumes env volumes
        = (Except.ok (), volumes.map (fun v => Event.createVolume v.name))
  | [] => rfl
  | v :: rest => by
    simp [Commands.createVolumes, hvol v.name, createVolumes_all_ok env hvol rest]

/-- C5: when the engine run fails during the generic create, the command
returns exactly the classified error — PORT_IN_USE (with the requested
port) on a "port is already allocated"/"Bind for" message, otherwise
NAME_IN_USE on a "name is already in use"/"already exists" message,
otherwise DOCKER_ERROR carrying the raw message — and the trace shows the
compensating force-remove-by-name and removal of every created volume
issued after the run and before returning, with the map untouched. -/
theorem C5_run_failure_classification_and_cleanup (env : Env)
    (request : DockerRunRequest) (now : String) (m : DbMap) (errMsg : String)
    (hvol : ∀ s, env.createVolume s = Except.ok ())
    (hrun : ∀ args, env.runContainer args = Except.error errMsg) :
    Commands.create_container_from_docker_args env request now m =
      (Except.error (CmdError.create
         (Commands.classifyRunError errMsg request.name request.metadata.port)), m,
       request.docker_args.volumes.map (fun v => Event.createVolume v.name)
         ++ [Event.runContainer (DockerService.build_docker_command_from_args
               request.name request.docker_args),
             Event.forceRemoveByName request.name]
         ++ request.docker_args.volumes.map (fun v => Event.removeVolume v.name))
    ∧ ((containsSubstr errMsg "port is already allocated"
          || containsSubstr errMsg "Bind for") = true →
        Commands.classifyRunError errMsg request.name request.metadata.port =
          { error_type := "PORT_IN_USE",
            message := "Port " ++ toString request.metadata.port ++ " is already in use",
            port := some request.metadata.port,
            details := some "You can change the port in the configuration and try again." })
    ∧ ((containsSubstr errMsg "port is already allocated"
          || containsSubstr errMsg "Bind for") = false →
        (containsSubstr errMsg "name is already in use"
          || containsSubstr errMsg "already exists") = true →
        Commands.classifyRunError errMsg request.name request.metadata.port =
          { error_type := "NAME_IN_USE",
            message := "A container with the name '" ++ request.name ++ "' already exists",
            port := none,
            details := some "Change the container name and try again." })
    ∧ ((containsSubstr errMsg "port is already allocated"
          || containsSubstr errMsg "Bind for") = false →
        (containsSubstr errMsg "name is already in use"
          || containsSubstr errMsg "already exists") = false →
        Commands.classifyRunError errMsg request.name request.metadata.port =
          { error_type := "DOCKER_ERROR",
            message := "Error creating container",
            port := none,
            details := some errMsg }) := by
  refine ⟨?_, fun h1 => ?_, fun h1 h2 => ?_, fun h1 h2 => ?_⟩
  · simp [Commands.create_container_from_docker_args,
      createVolumes_all_ok env hvol, hrun]
  · simp [Commands.classifyRunError, h1]
  · simp [Commands.classifyRunError, h1, h2]
  · simp [Commands.classifyRunError, h1, h2]

/-- Environment for the C5 witness: volume creation succeeds, the engine
run reports a port conflict. -/
def c5env : Env :=
  { createVolume := fun _ => Except.ok (),
    runContainer := fun _ =>
      Except.error "Bind for 0.0.0.0:5432 failed: port is already allocated",
    removeContainer := fun _ => Except.ok (),
    removeVolume := fun _ => Except.ok (),
    migrateVolume := fun _ _ _ => Except.ok (),
    saveStore := Except.ok () }

/-- Request for the C5 witness. -/
def c5req : DockerRunRequest :=
  { name := "pg1",
    docker_args :=
      { image := "postgres:15",
        env_vars := [("POSTGRES_PASSWORD", "pw")],
        ports := [{ host := 5555, container := 5432 }],
        volumes := [{ name := "pg1-data", path := "/var/lib/postgresql/data" }],
        command := [] },
    metadata :=
      { id := "id-pg1", db_type := "PostgreSQL", version := "15", port := 5555,
        username := none, password := "pw", database_name := none,
        persist_data := true, enable_auth := false, max_connections := none } }

/-- Witness for C5: a "Bind for ... port is already allocated" run failure
yields PORT_IN_USE carrying port 5555. -/
theorem C5_run_failure_classification_witness :
    (Commands.create_container_from_docker_args c5env c5req "2024-01-01" []).1 =
      Except.error (CmdError.create
        { error_type := "PORT_IN_USE",
          message := "Port 5555 is already in use",
          port := some 5555,
          details := some "You can change the port in the configuration and try again." }) := by
  have h := C5_run_failure_classification_and_cleanup c5env c5req "2024-01-01" []
    "Bind for 0.0.0.0:5432 failed: port is already allocated"
    (fun _ => rfl) (fun _ => rfl)
  rw [h.1]
  dsimp only
  rw [h.2.1 (by decide)]
  rfl

/-- C4: when the engine run succeeds during create but saving the record
set fails, the command rolls back: the in-memory map is left exactly as it
was, the trace shows the just-created container and the just-created
volumes removed after the failed save, and a configuration-save error is
returned.  This holds both for the generic command and (second conjunct)
the legacy command. -/
theorem C4_create_save_failure_rolls_back (env : Env) (request : DockerRunRequest)
    (now rid se : String) (m : DbMap)
    (hvol : ∀ s, env.createVolume s = Except.ok ())
    (hrun : ∀ args, env.runContainer args = Except.ok rid)
    (hsave : env.saveStore = Except.error se)
    (hfresh : request.metadata.id ∉ m.map Prod.fst) :
    Commands.create_container_from_docker_args env request now m =
      (Except.error (CmdError.msg ("Error saving configuration: " ++ se)), m,
       request.docker_args.volumes.map (fun v => Event.createVolume v.name)
         ++ [Event.runContainer (DockerService.build_docker_command_from_args
               request.name request.docker_args),
             Event.saveStore, Event.removeContainer rid]
         ++ request.docker_args.volumes.map (fun v => Event.removeVolume v.name))
    ∧ ∀ (lreq : CreateDatabaseRequest) (uuid : String) (args' : List String) (m' : DbMap),
        uuid ∉ m'.map Prod.fst →
        DockerService.build_docker_command lreq
          (if lreq.persist_data then some (lreq.name ++ "-data") else none)
          = Except.ok args' →
        Commands.create_database_container env lreq uuid now m' =
          (Except.error (CmdError.msg ("Error saving configuration: " ++ se)), m',
           (if lreq.persist_data then [Event.createVolume (lreq.name ++ "-data")] else [])
             ++ [Event.runContainer args', Event.saveStore, Event.removeContainer rid]
             ++ (if lreq.persist_data
                 then [Event.removeVolume (lreq.name ++ "-data")] else [])) := by
  constructor
  · simp [Commands.create_container_from_docker_args,
      createVolumes_all_ok env hvol, hrun, hsave,
      eraseA_insertA_of_not_mem _ _ _ hfresh]
  · intro lreq uuid args' m' hfresh' hbuild
    rcases hp : lreq.persist_data with _ | _ <;>
      rw [hp] at hbuild <;> simp at hbuild <;>
      simp [Commands.create_database_container, hp, hvol, hrun, hsave,
        hbuild, eraseA_insertA_of_not_mem _ _ _ hfresh']

/-- Environment for the C4 witness: everything succeeds except saving the
store. -/
def c4env : Env :=
  { createVolume := fun _ => Except.ok (),
    runContainer := fun _ => Except.ok "cid-new",
    removeContainer := fun _ => Except.ok (),
    removeVolume := fun _ => Except.ok (),
    migrateVolume := fun _ _ _ => Except.ok (),
    saveStore := Except.error "disk full" }

/-- Request for the C4 witness. -/
def c4req : DockerRunRequest :=
  { name := "redis1",
    docker_args :=
      { image := "redis:7", env_vars := [],
        ports := [{ host := 6380, container := 6379 }],
        volumes := [{ name := "redis1-data", path := "/data" }],
        command := [] },
    metadata :=
      { id := "id-redis1", db_type := "Redis", version := "7", port := 6380,
        username := none, password := "pw", database_name := none,
        persist_data := true, enable_auth := false, max_connections := none } }

/-- Witness for C4: with a failing store save, the create command reports a
configuration-save error and leaves the (initially empty) record set
empty. -/
theorem C4_create_save_failure_witness :
    (Commands.create_container_from_docker_args c4env c4req "2024-01-01" []).1 =
      Except.error (CmdError.msg "Error saving configuration: disk full")
    ∧ (Commands.create_container_from_docker_args c4env c4req "2024-01-01" []).2.1 = [] := by
  have h := C4_create_save_failure_rolls_back c4env c4req "2024-01-01" "cid-new"
    "disk full" [] (fun _ => rfl) (fun _ => rfl) rfl (by decide)
  refine ⟨?_, ?_⟩ <;> rw [h.1] <;> rfl


/-- C8: serializing a record set to the persistent store (its values, in
any iteration order) and loading it back yields a map equal to the
original at every id. -/
theorem C8_storage_round_trip (m : DbMap) (v : List DatabaseContainer) (id : String)
    (hids : ∀ p ∈ m, p.1 = p.2.id)
    (hkeys : (m.map Prod.fst).Nodup)
    (hperm : (StorageService.save_databases_to_store m).Perm v) :
    lookupA id (StorageService.load_databases_from_store v) = lookupA id m := by
  have hmapeq : m.map Prod.fst = m.map (fun p => p.2.id) :=
    List.map_congr_left hids
  have hvids : (v.map DatabaseContainer.id).Nodup := by
    have h1 : (StorageService.save_databases_to_store m).map DatabaseContainer.id
        = m.map (fun p => p.2.id) := by
      simp [StorageService.save_databases_to_store, List.map_map, Function.comp]
    have h2 : ((StorageService.save_databases_to_store m).map
        DatabaseContainer.id).Nodup := by
      rw [h1, ← hmapeq]; exact hkeys
    exact (hperm.map DatabaseContainer.id).nodup h2
  rcases hl : lookupA id m with _ | db
  · have hnone : ∀ db ∈ v, db.id ≠ id := by
      intro db hdb he
      have hdbm : db ∈ m.map Prod.snd := by
        rw [show m.map Prod.snd = StorageService.save_databases_to_store m from rfl]
        exact hperm.mem_iff.mpr hdb
      obtain ⟨p, hp, hpd⟩ := List.mem_map.mp hdbm
      have : id ∈ m.map Prod.fst := by
        have : p.1 = id := by rw [hids p hp, hpd, he]
        exact this ▸ List.mem_map_of_mem Prod.fst hp
      exact ((lookupA_eq_none_iff id m).mp hl) this
    unfold StorageService.load_databases_from_store
    rw [lookupA_load_go_of_ne id v [] hnone]
    rfl
  · have hmem : (id, db) ∈ m := (lookupA_eq_some_iff_mem id db m hkeys).mp hl
    have hdbv : db ∈ v := by
      have : db ∈ StorageService.save_databases_to_store m :=
        List.mem_map_of_mem Prod.snd hmem
      exact hperm.mem_iff.mp this
    have hdbid : db.id = id := ((hids (id, db) hmem).symm : db.id = id)
    unfold StorageService.load_databases_from_store
    exact lookupA_load_go_mem id v [] db hdbv hvids hdbid

/-- C7: after a successful reconcile pass, every record whose name matches
an observed container (matching is by name: the parsed `docker ps` entries
are keyed by container name) has its container id overwritten to the
observed id and its status set from the observed running flag — which the
parser derives as "status text starts with Up" — and every record with no
name-matching observed container is set to status "stopped" with no
container id. -/
theorem C7_sync_overwrites_by_name (stdout serr : String) (m m' : DbMap)
    (hsync : DockerService.sync_containers_with_docker
      (ExecResult.ok true stdout serr) m = Except.ok m')
    (k : String) (db : DatabaseContainer) (hmem : (k, db) ∈ m) :
    (∀ id isRun,
      lookupA db.name (DockerService.parseDockerContainers stdout) = some (id, isRun) →
        (k, { db with
                container_id := some id,
                status := if isRun then "running" else "stopped" }) ∈ m')
    ∧ (lookupA db.name (DockerService.parseDockerContainers stdout) = none →
        (k, { db with status := "stopped", container_id := none }) ∈ m') := by
  have hmm : (Except.ok (m.map fun kv =>
      match lookupA kv.2.name (DockerService.parseDockerContainers stdout) with
      | some (docker_id, is_running) =>
        (kv.1, { kv.2 with
                   container_id := some docker_id,
                   status := if is_running then "running" else "stopped" })
      | none => (kv.1, { kv.2 with status := "stopped", container_id := none }))
      : Except String DbMap)
      = Except.ok m' := by
    rw [← hsync]; rfl
  injection hmm with hm2
  subst hm2
  refine ⟨fun id isRun hl => ?_, fun hl => ?_⟩
  · have hin := List.mem_map_of_mem (fun kv =>
      match lookupA kv.2.name (DockerService.parseDockerContainers stdout) with
      | some (docker_id, is_running) =>
        ((kv.1 : String), { kv.2 with
                   container_id := some docker_id,
                   status := if is_running then "running" else "stopped" })
      | none => (kv.1, { kv.2 with status := "stopped", container_id := none })) hmem
    simpa [hl] using hin
  · have hin := List.mem_map_of_mem (fun kv =>
      match lookupA kv.2.name (DockerService.parseDockerContainers stdout) with
      | some (docker_id, is_running) =>
        ((kv.1 : String), { kv.2 with
                   container_id := some docker_id,
                   status := if is_running then "running" else "stopped" })
      | none => (kv.1, { kv.2 with status := "stopped", container_id := none })) hmem
    simpa [hl] using hin

/-- Sample record for the C7 witness. -/
def c7rec : DatabaseContainer :=
  { id := "id1", name := "svc1", db_type := "Redis", version := "7",
    status := "stopped", port := 6379, created_at := "2024-01-03",
    max_connections := 100, container_id := none,
    stored_password := none, stored_username := none,
    stored_database_name := none, stored_persist_data := false,
    stored_enable_auth := false }

/-- Witness for C7: a record named "svc1" picks up the observed id and the
running status parsed from an "Up ..." line. -/
theorem C7_sync_overwrites_by_name_witness :
    ("k1", { c7rec with container_id := some "cid9", status := "running" })
      ∈ [("k1", { c7rec with container_id := some "cid9", status := "running" })] := by
  have h := (C7_sync_overwrites_by_name "cid9,svc1,Up 3 hours\n" "" [("k1", c7rec)]
    [("k1", { c7rec with container_id := some "cid9", status := "running" })]
    (by rfl) "k1" c7rec (by decide)).1 "cid9" true (by decide)
  simpa using h
def c8recA : DatabaseContainer :=
  { id := "a", name := "pg-a", db_type := "PostgreSQL", version := "15",
    status := "running", port := 5432, created_at := "2024-01-01",
    max_connections := 100, container_id := some "cidA",
    stored_password := some "pw", stored_username := none,
    stored_database_name := none, stored_persist_data := true,
    stored_enable_auth := false }

/-- Second sample record for the C8 witness. -/
def c8recB : DatabaseContainer :=
  { id := "b", name := "redis-b", db_type := "Redis", version := "7",
    status := "stopped", port := 6379, created_at := "2024-01-02",
    max_connections := 50, container_id := none,
    stored_password := none, stored_username := none,
    stored_database_name := none, stored_persist_data := false,
    stored_enable_auth := true }

/-- Witness for C8: a two-record map saved and reloaded from the reversed
serialization order still looks up record "a" unchanged. -/
theorem C8_storage_round_trip_witness :
    lookupA "a" (StorageService.load_databases_from_store [c8recB, c8recA])
      = lookupA "a" [("a", c8recA), ("b", c8recB)] :=
  C8_storage_round_trip [("a", c8recA), ("b", c8recB)] [c8recB, c8recA] "a"
    (by decide) (by decide) (by decide)

/-- C9: when an update that triggers recreation omits the password, the
recreation request is built with the record's stored password, and with the
literal "password" when no password is stored. -/
theorem C9_update_password_fallback (request : UpdateContainerRequest)
    (container : DatabaseContainer) (hpw : request.password = none) :
    (Commands.updateCreateRequest request container).password
        = container.stored_password.getD "password"
    ∧ (∀ p, container.stored_password = some p →
        (Commands.updateCreateRequest request container).password = p)
    ∧ (container.stored_password = none →
        (Commands.updateCreateRequest request container).password = "password") :=
  ⟨by simp [Commands.updateCreateRequest, hpw],
   fun p hp => by simp [Commands.updateCreateRequest, hpw, hp],
   fun hp => by simp [Commands.updateCreateRequest, hpw, hp]⟩

/-- Record for the C9 witness: no stored password. -/
def c9db : DatabaseContainer :=
  { id := "u9", name := "redis9", db_type := "Redis", version := "7",
    status := "running", port := 6379, created_at := "2024-01-04",
    max_connections := 100, container_id := some "cid9a",
    stored_password := none, stored_username := none,
    stored_database_name := none, stored_persist_data := false,
    stored_enable_auth := false }

/-- Request for the C9 witness: recreation-triggering update with no
password. -/
def c9req : UpdateContainerRequest :=
  { container_id := "u9", name := none, port := some 6390, username := none,
    password := none, database_name := none, max_connections := none,
    enable_auth := none, persist_data := none, restart_policy := none,
    auto_start := none }

/-- Witness for C9: with no stored password and no requested password, the
rebuilt create request carries the literal "password". -/
theorem C9_update_password_fallback_witness :
    (Commands.updateCreateRequest c9req c9db).password = "password" :=
  (C9_update_password_fallback c9req c9db rfl).2.2 rfl

/-- In the persistent→non-persistent volume transition, the old volume
removal call is issued exactly when the name changed (whatever that call's
outcome). -/
theorem handleVolumeTransition_persist_false_events (env : Env) (new_name : String)
    (c : DatabaseContainer) (hsp : c.stored_persist_data = true) :
    (Commands.handleVolumeTransition env new_name false c).2 =
      if c.name = new_name then []
      else [Event.removeVolume (c.name ++ "-data")] := by
  by_cases hn : c.name = new_name
  · simp [Commands.handleVolumeTransition, hsp, hn]
  · rcases h : env.removeVolume (c.name ++ "-data") with e | u <;>
      simp [Commands.handleVolumeTransition, hsp, hn, h]

/-- C3 (amended): in an update where the stored record is
persistence-enabled and the request turns persistence off, the old
record's `{oldName}-data` volume is removed iff the name ALSO changed; a
same-name persistence-disabling update never removes the old volume. -/
theorem C3_persist_off_removes_old_volume_iff_renamed (env : Env)
    (request : UpdateContainerRequest) (m : DbMap) (c : DatabaseContainer)
    (hlook : lookupA request.container_id m = some c)
    (hpd : request.persist_data = some false)
    (hsp : c.stored_persist_data = true)
    (hrc : ∀ s, env.removeContainer s = Except.ok ()) :
    (Event.removeVolume (c.name ++ "-data")
        ∈ (Commands.update_container_config env request m).2.2)
      ↔ request.name.getD c.name ≠ c.name := by
  have hnr : Commands.needsRecreation request c = true := by
    simp [Commands.needsRecreation, hpd]
  have hcrp : (Commands.updateCreateRequest request c).persist_data = false := by
    simp [Commands.updateCreateRequest, hpd]
  unfold Commands.update_container_config
  rw [hlook]
  simp only [hnr, if_true]
  have hvev := handleVolumeTransition_persist_false_events env
    (request.name.getD c.name) c hsp
  rcases hHV : Commands.handleVolumeTransition env (request.name.getD c.name)
      (Commands.updateCreateRequest request c).persist_data c with ⟨vres, vev⟩
  rw [hcrp] at hHV
  have hvev2 : vev = if c.name = request.name.getD c.name then []
      else [Event.removeVolume (c.name ++ "-data")] := by
    rw [← hvev, hHV]
  rcases hcid : c.container_id with _ | oldid <;>
    simp only [hcid, hrc, hcrp, hHV] <;>
    rcases vres with e | vn
  · by_cases hn : c.name = request.name.getD c.name
    · rw [hvev2, if_pos hn]; simp [hn.symm]
    · rw [hvev2, if_neg hn]; simp [Ne.symm hn]
  · rcases hb : DockerService.build_docker_command
        (Commands.updateCreateRequest request c) vn with e2 | args
    · by_cases hn : c.name = request.name.getD c.name
      · rw [hvev2, if_pos hn]; simp [hb, hn.symm]
      · rw [hvev2, if_neg hn]; simp [hb, Ne.symm hn]
    · rcases hr : env.runContainer args with e3 | rid
      · by_cases hn : c.name = request.name.getD c.name
        · rw [hvev2, if_pos hn]; simp [hb, hr, hn.symm]
        · rw [hvev2, if_neg hn]; simp [hb, hr, Ne.symm hn]
      · rcases hs : env.saveStore with e4 | u <;>
          by_cases hn : c.name = request.name.getD c.name
        · rw [hvev2, if_pos hn]; simp [Commands.finishUpdate, hb, hr, hs, hn.symm]
        · rw [hvev2, if_neg hn]; simp [Commands.finishUpdate, hb, hr, hs, Ne.symm hn]
        · rw [hvev2, if_pos hn]; simp [Commands.finishUpdate, hb, hr, hs, hn.symm]
        · rw [hvev2, if_neg hn]; simp [Commands.finishUpdate, hb, hr, hs, Ne.symm hn]
  · by_cases hn : c.name = request.name.getD c.name
    · rw [hvev2, if_pos hn]; simp [hn.symm]
    · rw [hvev2, if_neg hn]; simp [Ne.symm hn]
  · rcases hb : DockerService.build_docker_command
        (Commands.updateCreateRequest request c) vn with e2 | args
    · by_cases hn : c.name = request.name.getD c.name
      · rw [hvev2, if_pos hn]; simp [hb, hn.symm]
      · rw [hvev2, if_neg hn]; simp [hb, Ne.symm hn]
    · rcases hr : env.runContainer args with e3 | rid
      · by_cases hn : c.name = request.name.getD c.name
        · rw [hvev2, if_pos hn]; simp [hb, hr, hn.symm]
        · rw [hvev2, if_neg hn]; simp [hb, hr, Ne.symm hn]
      · rcases hs : env.saveStore with e4 | u <;>
          by_cases hn : c.name = request.name.getD c.name
        · rw [hvev2, if_pos hn]; simp [Commands.finishUpdate, hb, hr, hs, hn.symm]
        · rw [hvev2, if_neg hn]; simp [Commands.finishUpdate, hb, hr, hs, Ne.symm hn]
        · rw [hvev2, if_pos hn]; simp [Commands.finishUpdate, hb, hr, hs, hn.symm]
        · rw [hvev2, if_neg hn]; simp [Commands.finishUpdate, hb, hr, hs, Ne.symm hn]

/-- C3 counterexample record: persistence-enabled. -/
def c3db : DatabaseContainer :=
  { id := "u3", name := "r1", db_type := "Redis", version := "7",
    status := "running", port := 6379, created_at := "2024-01-08",
    max_connections := 100, container_id := some "cidr",
    stored_password := none, stored_username := none,
    stored_database_name := none, stored_persist_data := true,
    stored_enable_auth := false }

/-- C3 counterexample request: persistence off, name unchanged. -/
def c3req : UpdateContainerRequest :=
  { container_id := "u3", name := none, port := none, username := none,
    password := none, database_name := none, max_connections := none,
    enable_auth := none, persist_data := some false, restart_policy := none,
    auto_start := none }

/-- All-success environment for the C3 counterexample. -/
def c3env : Env :=
  { createVolume := fun _ => Except.ok (),
    runContainer := fun _ => Except.ok "cidr2",
    removeContainer := fun _ => Except.ok (),
    removeVolume := fun _ => Except.ok (),
    migrateVolume := fun _ _ _ => Except.ok (),
    saveStore := Except.ok () }

/-- C3 counterexample: a persistence-disabling update that keeps the name
issues NO removal of the old `r1-data` volume — the trace of the update is
exactly container removal, run, save — contradicting the claim that the
old volume is removed regardless of whether the name changed. -/
theorem C3_same_name_persist_off_keeps_volume_counterexample :
    c3db.stored_persist_data = true
    ∧ c3req.persist_data = some false
    ∧ c3req.name = none
    ∧ (Commands.update_container_config c3env c3req [("u3", c3db)]).2.2
        = [Event.removeContainer "cidr",
           Event.runContainer ["run", "-d", "--name", "r1", "-p", "6379:6379", "redis:7"],
           Event.saveStore]
    ∧ Event.removeVolume (c3db.name ++ "-data")
        ∉ (Commands.update_container_config c3env c3req [("u3", c3db)]).2.2 :=
  ⟨rfl, rfl, rfl, rfl, by decide⟩

/-- Record for the C3 amended witness. -/
def c3wdb : DatabaseContainer :=
  { id := "u3w", name := "r1", db_type := "Redis", version := "7",
    status := "running", port := 6379, created_at := "2024-01-09",
    max_connections := 100, container_id := some "cidr",
    stored_password := none, stored_username := none,
    stored_database_name := none, stored_persist_data := true,
    stored_enable_auth := false }

/-- Request for the C3 amended witness: persistence off AND a rename. -/
def c3wreq : UpdateContainerRequest :=
  { container_id := "u3w", name := some "r2", port := none, username := none,
    password := none, database_name := none, max_connections := none,
    enable_auth := none, persist_data := some false, restart_policy := none,
    auto_start := none }

/-- All-success environment for the C3 amended witness. -/
def c3wenv : Env :=
  { createVolume := fun _ => Except.ok (),
    runContainer := fun _ => Except.ok "cidr3",
    removeContainer := fun _ => Except.ok (),
    removeVolume := fun _ => Except.ok (),
    migrateVolume := fun _ _ _ => Except.ok (),
    saveStore := Except.ok () }

/-- Witness for the amended C3: with a rename plus persistence-off, the
old volume removal IS issued. -/
theorem C3_persist_off_removes_old_volume_witness :
    Event.removeVolume (c3wdb.name ++ "-data")
      ∈ (Commands.update_container_config c3wenv c3wreq [("u3w", c3wdb)]).2.2 := by
  have h := C3_persist_off_removes_old_volume_iff_renamed c3wenv c3wreq
    [("u3w", c3wdb)] c3wdb rfl rfl rfl (fun _ => rfl)
  exact h.mpr (by decide)

/-- C1 counterexample record. -/
def c1db : DatabaseContainer :=
  { id := "u1", name := "r1", db_type := "Redis", version := "7",
    status := "running", port := 6379, created_at := "2024-01-06",
    max_connections := 100, container_id := some "cidr",
    stored_password := none, stored_username := none,
    stored_database_name := none, stored_persist_data := true,
    stored_enable_auth := false }

/-- C1 counterexample request: same persistence value as stored, no name,
no port — nothing differs. -/
def c1req : UpdateContainerRequest :=
  { container_id := "u1", name := none, port := none, username := none,
    password := none, database_name := none, max_connections := none,
    enable_auth := none, persist_data := some true, restart_policy := none,
    auto_start := none }

/-- All-success environment for the C1 counterexample. -/
def c1env : Env :=
  { createVolume := fun _ => Except.ok (),
    runContainer := fun _ => Except.ok "cidr2",
    removeContainer := fun _ => Except.ok (),
    removeVolume := fun _ => Except.ok (),
    migrateVolume := fun _ _ _ => Except.ok (),
    saveStore := Except.ok () }

/-- C1 counterexample: a request whose name and port are absent and whose
persistence flag equals the stored one — so nothing differs — still has
`needs_recreation = true`, and the update actually removes and re-runs the
container (a `runContainer` event appears in the trace). -/
theorem C1_recreation_despite_no_difference_counterexample :
    Commands.needsRecreation c1req c1db = true
    ∧ c1req.name = none
    ∧ c1req.port = none
    ∧ c1req.persist_data = some c1db.stored_persist_data
    ∧ (Commands.update_container_config c1env c1req [("u1", c1db)]).2.2
        = [Event.removeContainer "cidr", Event.createVolume "r1-data",
           Event.runContainer ["run", "-d", "--name", "r1", "-p", "6379:6379",
             "-v", "r1-data:/data", "redis:7"],
           Event.saveStore] :=
  ⟨rfl, rfl, rfl, rfl, rfl⟩

/-- C1 (amended): the update recreates the container iff the requested
name is present and differs, or the requested port is present and differs,
or the request carries a persistence flag at all — present-but-equal
persistence still forces recreation.  Requests without any of these (in
particular credential/metadata-only changes) update only `max_connections`
in place and issue no engine call. -/
theorem C1_recreation_predicate_amended :
    (∀ (request : UpdateContainerRequest) (container : DatabaseContainer),
      Commands.needsRecreation request container = true ↔
        ((∃ p, request.port = some p ∧ p ≠ container.port)
          ∨ (∃ n, request.name = some n ∧ n ≠ container.name)
          ∨ request.persist_data.isSome = true))
    ∧ (∀ (env : Env) (request : UpdateContainerRequest) (m : DbMap)
        (container : DatabaseContainer),
        lookupA request.container_id m = some container →
        Commands.needsRecreation request container = false →
        env.saveStore = Except.ok () →
        Commands.update_container_config env request m =
          (Except.ok { container with
             max_connections := request.max_connections.getD container.max_connections },
           insertA container.id
             { container with
                max_connections := request.max_connections.getD container.max_connections }
             m,
           [Event.saveStore])) := by
  constructor
  · intro request container
    unfold Commands.needsRecreation
    rcases hp : request.port with _ | p <;>
      rcases hn : request.name with _ | n <;>
        rcases hd : request.persist_data with _ | pd <;>
          simp [bne_iff_ne]
  · intro env request m container hlook hnr hsave
    unfold Commands.update_container_config
    rw [hlook]
    simp [hnr, Commands.finishUpdate, hsave]

/-- Record for the C1 amended witness. -/
def c1wdb : DatabaseContainer :=
  { id := "w1", name := "pgw", db_type := "PostgreSQL", version := "16",
    status := "running", port := 5432, created_at := "2024-01-07",
    max_connections := 100, container_id := some "cidw1",
    stored_password := some "pw", stored_username := none,
    stored_database_name := none, stored_persist_data := false,
    stored_enable_auth := false }

/-- Request for the C1 amended witness: credentials and metadata only. -/
def c1wreq : UpdateContainerRequest :=
  { container_id := "w1", name := none, port := none,
    username := some "newuser", password := some "newpass",
    database_name := none, max_connections := some 200,
    enable_auth := none, persist_data := none, restart_policy := none,
    auto_start := none }

/-- All-success environment for the C1 amended witness. -/
def c1wenv : Env :=
  { createVolume := fun _ => Except.ok (),
    runContainer := fun _ => Except.ok "x",
    removeContainer := fun _ => Except.ok (),
    removeVolume := fun _ => Except.ok (),
    migrateVolume := fun _ _ _ => Except.ok (),
    saveStore := Except.ok () }

/-- Witness for the amended C1: a credentials/metadata-only update leaves
the container alone and only rewrites `max_connections` before saving. -/
theorem C1_recreation_predicate_witness :
    Commands.update_container_config c1wenv c1wreq [("w1", c1wdb)] =
      (Except.ok { c1wdb with max_connections := 200 },
       insertA "w1" { c1wdb with max_connections := 200 } [("w1", c1wdb)],
       [Event.saveStore]) := by
  have h := C1_recreation_predicate_amended.2 c1wenv c1wreq [("w1", c1wdb)] c1wdb
    rfl rfl rfl
  rw [h]
  rfl

/-- C2 counterexample environment: container removal succeeds but volume
removal reports a non-ignorable error. -/
def c2env : Env :=
  { createVolume := fun _ => Except.ok (),
    runContainer := fun _ => Except.ok "cid-x",
    removeContainer := fun _ => Except.ok (),
    removeVolume := fun _ => Except.error "volume busy",
    migrateVolume := fun _ _ _ => Except.ok (),
    saveStore := Except.ok () }

/-- C2 counterexample record: persistence-enabled, with a live container. -/
def c2db : DatabaseContainer :=
  { id := "id1", name := "pg", db_type := "PostgreSQL", version := "15",
    status := "running", port := 5432, created_at := "2024-01-01",
    max_connections := 100, container_id := some "cid1",
    stored_password := some "pw", stored_username := none,
    stored_database_name := none, stored_persist_data := true,
    stored_enable_auth := false }

/-- C2 counterexample: with a known persistence-enabled record whose volume
removal fails non-ignorably, the remove command returns that error, the
record is NOT deleted from the in-memory set, and no save is issued —
contradicting the claim that deletion and persistence happen
unconditionally after container removal. -/
theorem C2_remove_volume_error_blocks_deletion_counterexample :
    (Commands.remove_container_command c2env "id1" [("id1", c2db)]).1
        = Except.error "volume busy"
    ∧ (Commands.remove_container_command c2env "id1" [("id1", c2db)]).2.1
        = [("id1", c2db)]
    ∧ (Commands.remove_container_command c2env "id1" [("id1", c2db)]).2.2
        = [Event.removeContainer "cid1", Event.removeVolume "pg-data"] :=
  ⟨rfl, rfl, rfl⟩

/-- C2 (amended): the remove command deletes the record and persists the
set only after the container-removal step and, for a persistence-enabled
record, the volume-removal step both succeed; a non-ignorable error from
either step (not only the container step) returns before the deletion,
leaving the record in place. -/
theorem C2_remove_deletes_only_after_removal_steps (env : Env)
    (container_id : String) (m : DbMap) (c : DatabaseContainer)
    (hfind : Commands.findByIdField container_id m = some c) :
    ((∀ s, env.removeContainer s = Except.ok ()) →
     (∀ s, env.removeVolume s = Except.ok ()) →
     env.saveStore = Except.ok () →
     Commands.remove_container_command env container_id m =
       (Except.ok (), eraseA container_id m,
        (match c.container_id with
         | some rid => [Event.removeContainer rid]
         | none => [])
          ++ (if c.stored_persist_data
              then [Event.removeVolume (c.name ++ "-data")] else [])
          ++ [Event.saveStore]))
    ∧ (∀ e, (∀ s, env.removeContainer s = Except.ok ()) →
        c.stored_persist_data = true →
        env.removeVolume (c.name ++ "-data") = Except.error e →
        Commands.remove_container_command env container_id m =
          (Except.error e, m,
           (match c.container_id with
            | some rid => [Event.removeContainer rid]
            | none => []) ++ [Event.removeVolume (c.name ++ "-data")]))
    ∧ (∀ e rid, c.container_id = some rid →
        env.removeContainer rid = Except.error e →
        Commands.remove_container_command env container_id m =
          (Except.error e, m, [Event.removeContainer rid])) := by
  refine ⟨?_, ?_, ?_⟩
  · intro hrc hrv hsave
    rcases hcid : c.container_id with _ | rid <;>
      rcases hsp : c.stored_persist_data with _ | _ <;>
        simp [Commands.remove_container_command, hfind, hcid, hsp, hrc, hrv, hsave]
  · intro e hrc hsp hrv
    rcases hcid : c.container_id with _ | rid <;>
      simp [Commands.remove_container_command, hfind, hcid, hsp, hrc, hrv]
  · intro e rid hcid hrc
    simp [Commands.remove_container_command, hfind, hcid, hrc]

/-- Map and record for the C2 amended witness. -/
def c2wdb : DatabaseContainer :=
  { id := "w2", name := "my", db_type := "MySQL", version := "8",
    status := "running", port := 3306, created_at := "2024-01-05",
    max_connections := 100, container_id := some "cidw2",
    stored_password := some "pw", stored_username := none,
    stored_database_name := none, stored_persist_data := true,
    stored_enable_auth := false }

/-- Environment for the C2 amended witness: every step succeeds. -/
def c2wenv : Env :=
  { createVolume := fun _ => Except.ok (),
    runContainer := fun _ => Except.ok "cid-x",
    removeContainer := fun _ => Except.ok (),
    removeVolume := fun _ => Except.ok (),
    migrateVolume := fun _ _ _ => Except.ok (),
    saveStore := Except.ok () }

/-- Witness for the amended C2: when every removal step succeeds the
record is deleted and the set saved. -/
theorem C2_remove_deletes_witness :
    Commands.remove_container_command c2wenv "w2" [("w2", c2wdb)] =
      (Except.ok (), [],
       [Event.removeContainer "cidw2", Event.removeVolume "my-data",
        Event.saveStore]) := by
  have h := (C2_remove_deletes_only_after_removal_steps c2wenv "w2"
    [("w2", c2wdb)] c2wdb rfl).1 (fun _ => rfl) (fun _ => rfl) rfl
  rw [h]
  rfl

/-- Witness for C10 at concrete executor outcomes. -/
theorem C10_removal_tolerance_witness :
    DockerService.remove_container (ExecResult.ok true "" "")
        (ExecResult.ok false "" "Error: No such container abc") = Except.ok ()
    ∧ DockerService.remove_volume_if_exists (ExecResult.ok true "" "")
        (ExecResult.ok false "" "Error: No such volume xyz") = Except.ok () :=
  ⟨((C10_removal_tolerates_transport_failure_and_missing_target
      (ExecResult.ok true "" "") (ExecResult.ok true "" "") "t" ""
      "Error: No such container abc" "Error: No such volume xyz").2.2.2.1
      (by decide)).1,
   (C10_removal_tolerates_transport_failure_and_missing_target
      (ExecResult.ok true "" "") (ExecResult.ok true "" "") "t" ""
      "Error: No such container abc" "Error: No such volume xyz").2.2.2.2
      (by decide)⟩

end DDM
